import Mathlib

/-!
Verification of the Airbnb MCP server core (`src/index.ts`).

Shallow embedding conventions:
* JavaScript strings are Lean `String`s; the handful of string operations the
  source uses (`split`, `trim`, `startsWith`) are re-implemented over the
  character list so that they evaluate inside the kernel.
* JSON values are the mutual inductive `Json`/`JArr`/`JObj` (arrays and
  objects carry their own list types so that the traversal functions are
  structurally recursive and kernel-computable).
* The process-wide cookie jar (`Map` in the source) is an association list
  threaded explicitly through the functions that mutate it.
* `fetch` itself is abstracted as an oracle `net : String → Option HttpResponse`
  (`none` models a network failure, i.e. the promise rejecting); the pipeline
  handlers are likewise parameterised by the outcomes of their two `await`ed
  fetches.
* Thrown JavaScript errors are `Except` errors; the distinct `throw new Error`
  sites of `fetchWithBrowserHeaders` become distinct `FetchError` constructors
  carrying the same data as the corresponding message templates.
-/

/-- JS `str.split(sep)` for a single-character separator, over the char list
(`String.splitOn` does not reduce in the kernel). Auxiliary accumulator form. -/
def splitCharAux (c : Char) : List Char → List Char → List String
  | [], acc => [String.mk acc.reverse]
  | x :: xs, acc =>
      if x == c then String.mk acc.reverse :: splitCharAux c xs []
      else splitCharAux c xs (x :: acc)

/-- JS `str.split(sep)` for a single-character separator; both separators used
by the source (`';'` in `parseCookies`, `'='` in `parseCookies`, `'/'` in URL
origin extraction) are single characters. -/
def jsSplitChar (s : String) (c : Char) : List String := splitCharAux c s.data []

/-- Whitespace recognised by JS `String.prototype.trim` (the characters that
can realistically occur in a `Set-Cookie` header). -/
def isJsWhitespace (ch : Char) : Bool :=
  ch == ' ' || ch == '\t' || ch == '\n' || ch == '\r' || ch == '\x0c' || ch == '\x0b'

/-- JS `str.trim()`, kernel-computable. -/
def jsTrim (s : String) : String :=
  String.mk (((s.data.dropWhile isJsWhitespace).reverse.dropWhile isJsWhitespace).reverse)

/-- JS `str.startsWith(p)`, kernel-computable. -/
def strStartsWith (s p : String) : Bool := p.data.isPrefixOf s.data

/-- Uppercase hexadecimal digits. -/
def hexDigits : List Char := "0123456789ABCDEF".data

/-- The `n`-th uppercase hexadecimal digit. -/
def hexDigit (n : Nat) : Char := hexDigits.getD n '0'

/-- Percent-encoding of one byte, as produced by `encodeURIComponent` and the
`application/x-www-form-urlencoded` serialiser. -/
def percentEncodeByte (b : Nat) : String :=
  String.mk ['%', hexDigit (b / 16 % 16), hexDigit (b % 16)]

/-- Percent-encoding of the UTF-8 bytes of one character. -/
def percentEncodeChar (c : Char) : String :=
  String.join ((String.utf8EncodeChar c).map (fun b => percentEncodeByte b.toNat))

/-- Characters left unescaped by JS `encodeURIComponent`
(ASCII alphanumerics and `- _ . ! ~ * ' ( )`; the apostrophe is code point 39). -/
def isUriUnreserved (c : Char) : Bool :=
  c.isAlpha || c.isDigit || "-_.!~*()".data.contains c || c.toNat == 39

/-- JS `encodeURIComponent`, used by both handlers when building URL paths. -/
def encodeURIComponent (s : String) : String :=
  String.join (s.data.map (fun c =>
    if isUriUnreserved c then String.mk [c] else percentEncodeChar c))

/-- Characters left unescaped by the `application/x-www-form-urlencoded`
serialiser used by `URLSearchParams.toString()`. -/
def isFormUnreserved (c : Char) : Bool :=
  c.isAlpha || c.isDigit || "*-._".data.contains c

/-- One query-string component as serialised by `URLSearchParams.toString()`
(space becomes `+`, other non-unreserved characters are percent-encoded). -/
def formEncode (s : String) : String :=
  String.join (s.data.map (fun c =>
    if isFormUnreserved c then String.mk [c]
    else if c == ' ' then "+"
    else percentEncodeChar c))

/-! ## JSON values -/

mutual
/-- A JSON value (the payloads extracted from the embedded state script). -/
inductive Json where
  | null
  | bool (b : Bool)
  | num (n : Int)
  | str (s : String)
  | arr (xs : JArr)
  | obj (fs : JObj)
/-- A JSON array, with its own list type so that traversals are structural. -/
inductive JArr where
  | nil
  | cons (hd : Json) (tl : JArr)
/-- A JSON object: an ordered list of key/value fields (JS object keys are
unique and iterate in insertion order). -/
inductive JObj where
  | nil
  | cons (k : String) (v : Json) (tl : JObj)
end

/-- Build a `JArr` from a Lean list (notation helper for literals). -/
def jarrOf : List Json → JArr
  | [] => .nil
  | x :: xs => .cons x (jarrOf xs)

/-- Build a `JObj` from a Lean list of fields. -/
def jobjOf : List (String × Json) → JObj
  | [] => .nil
  | (k, v) :: fs => .cons k v (jobjOf fs)

/-- Key lookup in a JSON object (JS property access on an object). -/
def JObj.find? : JObj → String → Option Json
  | .nil, _ => none
  | .cons k v tl, key => if k = key then some v else JObj.find? tl key

/-- Index lookup in a JSON array (JS `a[i]`). -/
def JArr.get? : JArr → Nat → Option Json
  | .nil, _ => none
  | .cons x _, 0 => some x
  | .cons _ tl, n + 1 => JArr.get? tl n

/-- Key lookup on an arbitrary JSON value: fields of an object, nothing
otherwise. -/
def Json.lookupKey : Json → String → Option Json
  | .obj fs, key => fs.find? key
  | _, _ => none

/-- The fields of a JSON value when it is an object, else no fields
(JS object spread `{...v}` contributes no properties for primitives). -/
def objFields : Json → JObj
  | .obj fs => fs
  | _ => .nil

/-! ## Cookie jar (`parseCookies` / `getCookieString`, src/index.ts lines 195-215)

The source keeps cookies in a process-wide `Map`; we model it as an ordered
association list. `Map.set` overwrites the value of an existing key in place
(keeping its position) and appends unknown keys. -/

/-- `cookieJar.set name value` — JS `Map.set` semantics: overwrite the value
of an existing key in place (keeping its position), append an unknown key at
the end.  A JS `Map` never holds duplicate keys, so overwriting the first
occurrence models it exactly. -/
def jarSet : List (String × String) → String → String → List (String × String)
  | [], n, v => [(n, v)]
  | (k, w) :: tl, n, v =>
      if k = n then (k, v) :: tl else (k, w) :: jarSet tl n v

/-- First-match cookie lookup (for stating properties of the jar). -/
def lookupCookie : List (String × String) → String → Option String
  | [], _ => none
  | (k, v) :: tl, n => if k = n then some v else lookupCookie tl n

/-- Processing of one `Set-Cookie` entry, from the body of the loop in
`parseCookies`: `const [mainPart] = cookieString.split(';')` takes the text
before the first `;`; `const [name, value] = mainPart.split('=')` takes the
first two `=`-separated fragments (so a value containing `=` is truncated at
its first `=`); the pair is stored, trimmed, when both fragments are
non-empty (JS truthiness of the untrimmed strings). -/
def recordSetCookie (jar : List (String × String)) (cookieString : String) :
    List (String × String) :=
  let mainPart := (jsSplitChar cookieString ';').headD ""
  let parts := jsSplitChar mainPart '='
  let name := parts.headD ""
  match parts.get? 1 with
  | none => jar
  | some value =>
      if name ≠ "" && value ≠ "" then jarSet jar (jsTrim name) (jsTrim value)
      else jar

/-- An HTTP response as observed by `fetchWithBrowserHeaders`: status code,
`Location` header, raw `Set-Cookie` entries, body text. -/
structure HttpResponse where
  status : Nat
  location : Option String
  setCookies : List String
  body : String
deriving DecidableEq, Repr

/-- `parseCookies(response)`: fold every `Set-Cookie` entry of the response
into the jar (`response.headers.raw()['set-cookie'] || []`). -/
def parseCookies (jar : List (String × String)) (response : HttpResponse) :
    List (String × String) :=
  response.setCookies.foldl recordSetCookie jar

/-- `getCookieString()`: serialise the jar as `name=value` pairs joined by
`"; "` in insertion order. -/
def getCookieString (jar : List (String × String)) : String :=
  String.intercalate "; " (jar.map (fun p => p.1 ++ "=" ++ p.2))

/-! ## Browser HTTP client (`fetchWithBrowserHeaders`, src/index.ts lines 217-279) -/

/-- The three distinct `throw` sites of `fetchWithBrowserHeaders`, plus the
propagated rejection of `fetch` itself.  Each constructor carries the data
interpolated into the corresponding error message. -/
inductive FetchError where
  | transport (url : String)
  | tooManyRedirects (url : String)
  | missingLocation (status : Nat)
deriving DecidableEq, Repr

deriving instance DecidableEq for Except

/-- `MAX_REDIRECTS` from the source. -/
def MAX_REDIRECTS : Nat := 5

/-- The redirect-status test of the source:
`response.status === 307 || response.status === 302 || response.status === 301`. -/
def redirectStatus (n : Nat) : Bool := n == 307 || n == 302 || n == 301

/-- The scheme-and-host part of an absolute URL (text up to the third `/`);
used to resolve root-relative `Location` headers. -/
def urlOrigin (url : String) : String :=
  String.intercalate "/" ((jsSplitChar url '/').take 3)

/-- Model of `new URL(location, url).toString()` for the two shapes a
`Location` header takes in practice: an absolute URL is kept as-is, anything
else is resolved against the origin of the current URL. -/
def resolveLocation (location url : String) : String :=
  if strStartsWith location "http://" || strStartsWith location "https://" then location
  else urlOrigin url ++ location

/-- `fetchWithBrowserHeaders(url, options, redirectCount)`.

The source counts redirects upward and throws once `redirectCount >= MAX_REDIRECTS`;
we carry the equivalent countdown `redirectsLeft = MAX_REDIRECTS - redirectCount`
(so the top-level call passes `MAX_REDIRECTS` and the throw fires at `0`),
which makes the recursion structural.  The result is the final jar, the list
of responses received (each of which was passed to `parseCookies` before any
redirect handling, mirroring the statement order of the source), and either
the returned response or the thrown error. -/
def fetchWithBrowserHeaders (net : String → Option HttpResponse)
    (jar : List (String × String)) (url : String) (redirectsLeft : Nat) :
    List (String × String) × List HttpResponse × Except FetchError HttpResponse :=
  match net url with
  | none => (jar, [], .error (.transport url))
  | some response =>
    -- "Stocke les cookies posés avant redirection éventuelle"
    let jar1 := parseCookies jar response
    if redirectStatus response.status then
      match redirectsLeft with
      | 0 => (jar1, [response], .error (.tooManyRedirects url))
      | left + 1 =>
        match response.location with
        | none => (jar1, [response], .error (.missingLocation response.status))
        | some location =>
          let next := fetchWithBrowserHeaders net jar1 (resolveLocation location url) left
          (next.1, response :: next.2.1, next.2.2)
    else (jar1, [response], .ok response)

/-! A generic redirect chain for exercising `fetchWithBrowserHeaders`:
`chainNet s k` serves `k` responses with status `s` at `chainUrl 0 .. chainUrl (k-1)`,
each redirecting to the next URL, followed by a final `200` at `chainUrl k`. -/

/-- The `i`-th URL of the test redirect chain. -/
def chainUrl (i : Nat) : String := "https://www.airbnb.ca/redirect" ++ toString i

/-- A network serving a chain of `k` redirects of status `s` ending in a `200`. -/
def chainNet (s : Nat) (k : Nat) : String → Option HttpResponse :=
  fun u =>
    match (List.range (k + 1)).find? (fun i => chainUrl i == u) with
    | some i =>
        if i < k then some (HttpResponse.mk s (some (chainUrl (i + 1))) [] "")
        else some (HttpResponse.mk 200 none [] "")
    | none => none

/-! ## URL construction (`handleAirbnbSearch` lines 300-330, `handleAirbnbListingDetails` lines 455-476) -/

/-- `BASE_URL` from the source. -/
def BASE_URL : String := "https://www.airbnb.ca"

/-- A single quote character (code point 39), used to spell the robots message. -/
def squote : String := String.mk [Char.ofNat 39]

/-- `robotsErrorMessage` from the source (line 163). -/
def robotsErrorMessage : String :=
  "This path is disallowed by Airbnb" ++ squote ++
  "s robots.txt to this User-agent. You may or may not want to run the server with " ++
  squote ++ "--ignore-robots-txt" ++ squote ++ " args"

/-- A URL under `BASE_URL`: the pathname plus the ordered list of query
parameters accumulated by `searchParams.append`. -/
structure UrlModel where
  path : String
  query : List (String × String)
deriving DecidableEq, Repr

/-- `url.search`: the serialised query string including the leading `?`,
empty when there are no parameters (`URLSearchParams.toString` semantics). -/
def searchStringOf (q : List (String × String)) : String :=
  if q.isEmpty then ""
  else "?" ++ String.intercalate "&" (q.map (fun p => formEncode p.1 ++ "=" ++ formEncode p.2))

/-- `url.toString()`. -/
def urlToString (u : UrlModel) : String := BASE_URL ++ u.path ++ searchStringOf u.query

/-- `url.pathname + url.search`, the string both handlers pass to `isPathAllowed`. -/
def robotsPath (u : UrlModel) : String := u.path ++ searchStringOf u.query

/-- `if (param) searchParams.append(key, param)` for a string-valued parameter:
JS truthiness appends exactly when the value is present and non-empty. -/
def optQueryParam (key : String) (v : Option String) : List (String × String) :=
  match v with
  | none => []
  | some s => if s = "" then [] else [(key, s)]

/-- `if (param) searchParams.append(key, param.toString())` for a numeric
parameter: JS truthiness appends exactly when the value is present and
non-zero. -/
def optIntQueryParam (key : String) (v : Option Int) : List (String × String) :=
  match v with
  | none => []
  | some n => if n = 0 then [] else [(key, toString n)]

/-- The guest block of `handleAirbnbSearch` (lines 310-321): the four
parameters are appended, in order, exactly when `totalGuests = adults_int +
children_int` is positive.  The numeric parameters are modelled as integers,
on which `parseInt(n.toString())` is the identity. -/
def guestParamsSearch (adults children infants pets : Int) : List (String × String) :=
  if 0 < adults + children then
    [("adults", toString adults), ("children", toString children),
     ("infants", toString infants), ("pets", toString pets)]
  else []

/-- The guest block of `handleAirbnbListingDetails` (lines 462-476): under the
same `totalGuests` condition the source appends `adults`, `children`,
`infants` twice each (lines 469-474 repeat the three appends) and `pets`
once. -/
def guestParamsListing (adults children infants pets : Int) : List (String × String) :=
  if 0 < adults + children then
    [("adults", toString adults), ("children", toString children),
     ("infants", toString infants),
     ("adults", toString adults), ("children", toString children),
     ("infants", toString infants), ("pets", toString pets)]
  else []

/-- The search URL built by `handleAirbnbSearch` (lines 300-330):
path `/s/<encodeURIComponent(location)>/homes`, then `place_id`, `checkin`,
`checkout`, the guest block, `price_min`, `price_max`, `cursor` in the
source's append order. -/
def buildSearchUrl (location : String) (placeId checkin checkout : Option String)
    (adults children infants pets : Int) (minPrice maxPrice : Option Int)
    (cursor : Option String) : UrlModel :=
  UrlModel.mk ("/s/" ++ encodeURIComponent location ++ "/homes")
    (optQueryParam "place_id" placeId ++
     optQueryParam "checkin" checkin ++
     optQueryParam "checkout" checkout ++
     guestParamsSearch adults children infants pets ++
     optIntQueryParam "price_min" minPrice ++
     optIntQueryParam "price_max" maxPrice ++
     optQueryParam "cursor" cursor)

/-- The listing URL built by `handleAirbnbListingDetails` (lines 455-476):
path `/rooms/<id>`, then `check_in`, `check_out` and the (duplicated) guest
block. -/
def buildListingUrl (id : String) (checkin checkout : Option String)
    (adults children infants pets : Int) : UrlModel :=
  UrlModel.mk ("/rooms/" ++ id)
    (optQueryParam "check_in" checkin ++
     optQueryParam "check_out" checkout ++
     guestParamsListing adults children infants pets)

/-- Whether the query string of a URL carries a parameter of the given name. -/
def hasParam (u : UrlModel) (k : String) : Bool := u.query.any (fun p => p.1 == k)

/-- How many times the query string of a URL carries a parameter of the name. -/
def countParam (u : UrlModel) (k : String) : Nat :=
  (u.query.filter (fun p => p.1 == k)).length

/-! ## JsonProjector (`cleanObject` / `pickBySchema` / `flattenArraysInObject`)

These three functions are imported from `./util.js`, whose source file is not
part of the repository snapshot; they are modelled from the specification's
component design (§4.4). -/

/-- Whether a value is `null` or an empty sequence/mapping, the removal test
of `clean`. -/
def isNullOrEmpty : Json → Bool
  | .null => true
  | .arr .nil => true
  | .obj .nil => true
  | _ => false

mutual
/-- Modelled from the spec: `cleanObject` from `src/util.ts` (absent from the
snapshot) — "recursively walks the tree in place; for mapping types, any key
whose value is null or undefined-equivalent, or an empty sequence/mapping, is
removed; the walk recurses into surviving children." -/
def cleanObject : Json → Json
  | .arr xs => .arr (cleanJA xs)
  | .obj fs => .obj (cleanJO fs)
  | v => v
/-- Element-wise `cleanObject` over an array. -/
def cleanJA : JArr → JArr
  | .nil => .nil
  | .cons x tl => .cons (cleanObject x) (cleanJA tl)
/-- Field-wise `cleanObject` over an object, dropping null/empty values. -/
def cleanJO : JObj → JObj
  | .nil => .nil
  | .cons k v tl =>
      if isNullOrEmpty v then cleanJO tl
      else .cons k (cleanObject v) (cleanJO tl)
end

/-- A projection schema: a key is either kept verbatim (`leaf`, `true` in the
source's literals) or projected through a nested schema (`node`). -/
inductive Schema where
  | leaf
  | node (fs : List (String × Schema))

/-- Lookup of a key in a schema's field list. -/
def lookupSchema : List (String × Schema) → String → Option Schema
  | [], _ => none
  | (k, s) :: tl, key => if k = key then some s else lookupSchema tl key

mutual
/-- Modelled from the spec: `pickBySchema` from `src/util.ts` (absent from the
snapshot) — "for a mapping input, keeps only keys present in schema; a `true`
entry keeps the value verbatim; a nested schema recurses, applied element-wise
when the value is a sequence; for non-mapping, non-sequence input, returns the
value unchanged." -/
def pickBySchema : Json → Schema → Json
  | .obj fs, .node sfs => .obj (pickJO fs sfs)
  | .arr xs, s => .arr (pickJA xs s)
  | v, _ => v
/-- Element-wise `pickBySchema` over a sequence. -/
def pickJA : JArr → Schema → JArr
  | .nil, _ => .nil
  | .cons x tl, s => .cons (pickBySchema x s) (pickJA tl s)
/-- Field-wise `pickBySchema`: drop keys absent from the schema, keep `true`
keys verbatim, recurse through nested schemas. -/
def pickJO : JObj → List (String × Schema) → JObj
  | .nil, _ => .nil
  | .cons k v tl, sfs =>
      match lookupSchema sfs k with
      | none => pickJO tl sfs
      | some .leaf => .cons k v (pickJO tl sfs)
      | some (.node sub) => .cons k (pickBySchema v (.node sub)) (pickJO tl sfs)
end

mutual
/-- Modelled from the spec: `flattenArraysInObject` from `src/util.ts` (absent
from the snapshot) — "recursively replaces any array-of-length-one encountered
as an object's field value with its sole element (unwrapped), recursing into
the unwrapped value; arrays of length ≠ 1 are left as sequences but their
elements are still recursively flattened." -/
def flattenArraysInObject : Json → Json
  | .arr (.cons x .nil) => flattenArraysInObject x
  | .arr xs => .arr (flattenJA xs)
  | .obj fs => .obj (flattenJO fs)
  | v => v
/-- Element-wise flattening over an array of length ≠ 1. -/
def flattenJA : JArr → JArr
  | .nil => .nil
  | .cons x tl => .cons (flattenArraysInObject x) (flattenJA tl)
/-- Field-wise flattening over an object. -/
def flattenJO : JObj → JObj
  | .nil => .nil
  | .cons k v tl => .cons k (flattenArraysInObject v) (flattenJO tl)
end

/-! ## JS property access semantics for the extraction code

The extraction blocks descend untyped values with `a.b`, `a[i]` chains inside
a `try`.  In JS, property access on `null`/`undefined` throws (caught by the
surrounding `try`), access to a missing key yields `undefined`, and access on
a primitive yields `undefined`.  We model a possibly-`undefined` value as
`Option Json` and a throwing computation as `Except Unit`. -/

/-- JS `v.k`: throws on `null`/`undefined` receivers, looks up object fields,
yields `undefined` on primitives. -/
def jsGetKey (v : Option Json) (k : String) : Except Unit (Option Json) :=
  match v with
  | none => .error ()
  | some .null => .error ()
  | some (.obj fs) => .ok (fs.find? k)
  | some _ => .ok none

/-- JS `v[i]` for a numeric index: throws on `null`/`undefined` receivers,
indexes arrays, yields `undefined` otherwise. -/
def jsGetIdx (v : Option Json) (i : Nat) : Except Unit (Option Json) :=
  match v with
  | none => .error ()
  | some .null => .error ()
  | some (.arr xs) => .ok (xs.get? i)
  | some _ => .ok none

mutual
/-- JS template-literal interpolation of a value (used for
`${result.listing.id}`); listing ids are strings or numbers in practice, and
the remaining cases follow JS `String(v)` in outline. -/
def jsTemplateString : Json → String
  | .null => "null"
  | .bool true => "true"
  | .bool false => "false"
  | .num n => toString n
  | .str s => s
  | .arr xs => jsTemplateJA xs
  | .obj _ => "[object Object]"
/-- Array interpolation: elements joined by commas. -/
def jsTemplateJA : JArr → String
  | .nil => ""
  | .cons x .nil => jsTemplateString x
  | .cons x tl => jsTemplateString x ++ "," ++ jsTemplateJA tl
end

/-- Interpolation of a possibly-`undefined` value. -/
def jsTemplateOpt : Option Json → String
  | none => "undefined"
  | some v => jsTemplateString v

/-! ## The two schema literals of src/index.ts -/

/-- `allowSearchResultSchema` (lines 347-390). -/
def allowSearchResultSchema : Schema :=
  .node
    [("listing", .node
        [("id", .leaf), ("name", .leaf), ("title", .leaf), ("coordinate", .leaf),
         ("structuredContent", .node
            [("mapCategoryInfo", .node [("body", .leaf)]),
             ("mapSecondaryLine", .node [("body", .leaf)]),
             ("primaryLine", .node [("body", .leaf)]),
             ("secondaryLine", .node [("body", .leaf)])])]),
     ("avgRatingA11yLabel", .leaf),
     ("listingParamOverrides", .leaf),
     ("structuredDisplayPrice", .node
        [("primaryLine", .node [("accessibilityLabel", .leaf)]),
         ("secondaryLine", .node [("accessibilityLabel", .leaf)]),
         ("explanationData", .node
            [("title", .leaf),
             ("priceDetails", .node
                [("items", .node
                    [("description", .leaf), ("priceString", .leaf)])])])])]

/-- `allowSectionSchema` (lines 493-529): the five allow-listed section
identifiers and their projection schemas. -/
def allowSectionSchema : List (String × Schema) :=
  [("LOCATION_DEFAULT", .node
      [("lat", .leaf), ("lng", .leaf), ("subtitle", .leaf), ("title", .leaf)]),
   ("POLICIES_DEFAULT", .node
      [("title", .leaf),
       ("houseRulesSections", .node
          [("title", .leaf), ("items", .node [("title", .leaf)])])]),
   ("HIGHLIGHTS_DEFAULT", .node [("highlights", .node [("title", .leaf)])]),
   ("DESCRIPTION_DEFAULT", .node [("htmlDescription", .node [("htmlText", .leaf)])]),
   ("AMENITIES_DEFAULT", .node
      [("title", .leaf),
       ("seeAllAmenitiesGroups", .node
          [("title", .leaf), ("amenities", .node [("title", .leaf)])])])]

/-- The five allow-listed section identifiers, in source order. -/
def allowedSectionIds : List String :=
  ["LOCATION_DEFAULT", "POLICIES_DEFAULT", "HIGHLIGHTS_DEFAULT",
   "DESCRIPTION_DEFAULT", "AMENITIES_DEFAULT"]

/-! ## Search extraction (lines 403-416) -/

/-- One entry of the mapped `searchResults` (lines 410-411):
`flattenArraysInObject(pickBySchema(result, allowSearchResultSchema))`, then
`{url: BASE_URL + "/rooms/" + result.listing.id, ...result}`.  Reading
`result.listing.id` throws when the projected `listing` is absent. -/
def searchResultEntry (result : Json) : Except Unit Json := do
  let proj := flattenArraysInObject (pickBySchema result allowSearchResultSchema)
  let listing ← jsGetKey (some proj) "listing"
  let id? ← jsGetKey listing "id"
  .ok (.obj (JObj.cons "url" (.str (BASE_URL ++ "/rooms/" ++ jsTemplateOpt id?))
      (objFields proj)))

/-- `searchResultEntry` applied across the `searchResults` array, propagating
the first thrown error as `.map` does. -/
def mapSearchResults : JArr → Except Unit JArr
  | .nil => .ok .nil
  | .cons x tl => do
      let y ← searchResultEntry x
      let ys ← mapSearchResults tl
      .ok (.cons y ys)

/-- The `try` block of lines 403-413: descend
`JSON.parse(text).niobeMinimalClientData[0][1].data.presentation.staysSearch.results`,
clean it, map the result entries and keep `paginationInfo`.  Any throwing step
surfaces as `.error ()` (caught by the inner `catch`, which only logs).
The returned fields are those spread into the response payload. -/
def extractStaysSearch (root : Json) : Except Unit JObj := do
  let a ← jsGetKey (some root) "niobeMinimalClientData"
  let b ← jsGetIdx a 0
  let clientData ← jsGetIdx b 1
  let d ← jsGetKey clientData "data"
  let pres ← jsGetKey d "presentation"
  let ss ← jsGetKey pres "staysSearch"
  let results? ← jsGetKey ss "results"
  match results? with
  | none => .error ()
  | some results0 =>
    match cleanObject results0 with
    | .obj rfs =>
      match rfs.find? "searchResults" with
      | some (.arr items) => do
          let mapped ← mapSearchResults items
          let rest := match rfs.find? "paginationInfo" with
            | some pag => JObj.cons "paginationInfo" pag .nil
            | none => .nil
          .ok (JObj.cons "searchResults" (.arr mapped) rest)
      | _ => .error ()
    | _ => .error ()

/-- The whole extraction attempt of the search pipeline: `none` models a page
where the `#data-deferred-state-0` script element is absent or its text fails
`JSON.parse`; otherwise the parsed JSON is descended. -/
def searchExtraction : Option Json → Except Unit JObj
  | none => .error ()
  | some root => extractStaysSearch root

/-! ## Listing-details extraction (lines 550-562) -/

/-- The `sectionId` of a section when the section is an object carrying a
string `sectionId` field. -/
def sectionIdOf : Json → Option String
  | .obj fs =>
      match fs.find? "sectionId" with
      | some (.str sid) => some sid
      | _ => none
  | _ => none

/-- The projected fields of a kept section:
`flattenArraysInObject(pickBySchema(section.section, schema))`, spread into the
entry.  A missing `section` field spreads nothing. -/
def projectedSectionFields (s : Json) (sch : Schema) : JObj :=
  match s with
  | .obj fs =>
      match fs.find? "section" with
      | some v => objFields (flattenArraysInObject (pickBySchema v sch))
      | none => .nil
  | _ => .nil

/-- A kept entry: `{id: section.sectionId, ...projected fields}` (lines 557-561). -/
def sectionEntry (s : Json) (sid : String) (sch : Schema) : Json :=
  .obj (JObj.cons "id" (.str sid) (projectedSectionFields s sch))

/-- Filtering and mapping of one (already cleaned) section:
`allowSectionSchema.hasOwnProperty(section.sectionId)` decides whether the
section is kept.  Reading `.sectionId` throws on a `null` section; a section
with no (or a non-string) `sectionId` never matches the five literal keys and
is dropped. -/
def sectionKeep (s : Json) : Except Unit (Option Json) :=
  match s with
  | .null => .error ()
  | .obj fs =>
      match fs.find? "sectionId" with
      | some (.str sid) =>
          match lookupSchema allowSectionSchema sid with
          | some sch => .ok (some (sectionEntry s sid sch))
          | none => .ok none
      | _ => .ok none
  | _ => .ok none

/-- `sections.filter(...).map(...)` over the cleaned sections, propagating the
first thrown error. -/
def processSections : JArr → Except Unit JArr
  | .nil => .ok .nil
  | .cons s tl =>
      match sectionKeep s with
      | .error e => .error e
      | .ok entry =>
          match processSections tl with
          | .error e => .error e
          | .ok rest =>
              match entry with
              | some j => .ok (.cons j rest)
              | none => .ok rest

/-- The `try` block of lines 550-562: descend
`...niobeMinimalClientData[0][1].data.presentation.stayProductDetailPage.sections.sections`,
clean each section in place (`forEach(cleanObject)`), then filter by the
section-schema allow-list and map to `{id, ...projected}` entries. -/
def extractListingDetails (root : Json) : Except Unit JArr := do
  let a ← jsGetKey (some root) "niobeMinimalClientData"
  let b ← jsGetIdx a 0
  let clientData ← jsGetIdx b 1
  let d ← jsGetKey clientData "data"
  let pres ← jsGetKey d "presentation"
  let spdp ← jsGetKey pres "stayProductDetailPage"
  let sectionsHolder ← jsGetKey spdp "sections"
  let sections? ← jsGetKey sectionsHolder "sections"
  match sections? with
  | some (.arr sections) => processSections (cleanJA sections)
  | _ => .error ()

/-- The whole extraction attempt of the details pipeline (`none` models a
missing or unparseable state script). -/
def detailsExtraction : Option Json → Except Unit JArr
  | none => .error ()
  | some root => extractListingDetails root

/-- An embedded-state JSON document whose section array is `sections`, shaped
exactly as the extraction path expects
(`niobeMinimalClientData[0][1].data.presentation.stayProductDetailPage.sections.sections`). -/
def listingStateOf (sections : JArr) : Json :=
  let inner := Json.obj (jobjOf [("sections", Json.arr sections)])
  let spdp := Json.obj (jobjOf [("sections", inner)])
  let pres := Json.obj (jobjOf [("stayProductDetailPage", spdp)])
  let dat := Json.obj (jobjOf [("presentation", pres)])
  let payload := Json.obj (jobjOf [("data", dat)])
  let pair := Json.arr (jarrOf [Json.str "q", payload])
  Json.obj (jobjOf [("niobeMinimalClientData", Json.arr (jarrOf [pair]))])

/-! ## The two pipeline handlers (lines 283-440 and 442-589)

Each handler is parameterised by the outcome of its collaborators:
`allowed` models `isPathAllowed` (the robots.txt ruleset consulted for the
session user agent), `warmup` the `await fetchWithBrowserHeaders(BASE_URL)`
session warm-up (`.error msg` = the fetch rejected with that message), and
`fetched` the target fetch plus HTML-to-state-script step (`.error msg` = the
fetch or `response.text()` rejected; `.ok state?` = a page whose parsed
embedded state is `state?`).  The result models the returned object: the
payload passed to `JSON.stringify` and the `isError` flag. -/

/-- The `{content: [{type: "text", text: JSON.stringify(payload)}], isError}`
result shape, modelled at the payload level. -/
structure ToolResult where
  payload : Json
  isError : Bool

/-- `handleAirbnbSearch(params)`.  The guest counts default to 1/0/0/0 and
`ignoreRobotsText` to `false` exactly as the destructuring defaults do; the
numeric parameters are modelled as integers, on which
`parseInt(n.toString())` is the identity. -/
def handleAirbnbSearch (allowed : String → Bool) (warmup : Except String Unit)
    (fetched : Except String (Option Json))
    (location : String) (placeId checkin checkout : Option String)
    (adults children infants pets : Option Int)
    (minPrice maxPrice : Option Int) (cursor : Option String)
    (ignoreRobotsText : Bool) : ToolResult :=
  let searchUrl := buildSearchUrl location placeId checkin checkout
    (adults.getD 1) (children.getD 0) (infants.getD 0) (pets.getD 0)
    minPrice maxPrice cursor
  let urlStr := urlToString searchUrl
  if !ignoreRobotsText && !allowed (robotsPath searchUrl) then
    ToolResult.mk (.obj (jobjOf
      [("error", .str robotsErrorMessage), ("url", .str urlStr)])) true
  else
    match warmup with
    | .error e => ToolResult.mk (.obj (jobjOf
        [("error", .str e), ("searchUrl", .str urlStr)])) true
    | .ok _ =>
      match fetched with
      | .error e => ToolResult.mk (.obj (jobjOf
          [("error", .str e), ("searchUrl", .str urlStr)])) true
      | .ok state? =>
        match searchExtraction state? with
        | .error _ => ToolResult.mk (.obj (jobjOf [("searchUrl", .str urlStr)])) false
        | .ok fields =>
            ToolResult.mk (.obj (JObj.cons "searchUrl" (.str urlStr) fields)) false

/-- `handleAirbnbListingDetails(params)`, under the same conventions. -/
def handleAirbnbListingDetails (allowed : String → Bool) (warmup : Except String Unit)
    (fetched : Except String (Option Json))
    (id : String) (checkin checkout : Option String)
    (adults children infants pets : Option Int)
    (ignoreRobotsText : Bool) : ToolResult :=
  let listingUrl := buildListingUrl id checkin checkout
    (adults.getD 1) (children.getD 0) (infants.getD 0) (pets.getD 0)
  let urlStr := urlToString listingUrl
  if !ignoreRobotsText && !allowed (robotsPath listingUrl) then
    ToolResult.mk (.obj (jobjOf
      [("error", .str robotsErrorMessage), ("url", .str urlStr)])) true
  else
    match warmup with
    | .error e => ToolResult.mk (.obj (jobjOf
        [("error", .str e), ("listingUrl", .str urlStr)])) true
    | .ok _ =>
      match fetched with
      | .error e => ToolResult.mk (.obj (jobjOf
          [("error", .str e), ("listingUrl", .str urlStr)])) true
      | .ok state? =>
        match detailsExtraction state? with
        | .error _ => ToolResult.mk (.obj (jobjOf
            [("listingUrl", .str urlStr), ("details", .obj .nil)])) false
        | .ok ds => ToolResult.mk (.obj (jobjOf
            [("listingUrl", .str urlStr), ("details", .arr ds)])) false

/-- The pure filter/map description of the section pipeline, for stating the
allow-list property: a (cleaned) section is kept exactly when its `sectionId`
is one of the five schema keys, and maps to `{id, ...projected}`. -/
def keepEntry (s : Json) : Option Json :=
  match sectionIdOf s with
  | some sid => (lookupSchema allowSectionSchema sid).map (fun sch => sectionEntry s sid sch)
  | none => none

/-- A sample section carrying an allow-listed identifier, for concrete runs. -/
def sampleLocationSection : Json :=
  .obj (jobjOf [("sectionId", .str "LOCATION_DEFAULT"),
    ("section", .obj (jobjOf [("lat", .num 48), ("title", .str "Loc"), ("junk", .num 1)]))])

/-- A sample section carrying an identifier outside the allow-list. -/
def sampleOtherSection : Json :=
  .obj (jobjOf [("sectionId", .str "REVIEWS_DEFAULT"),
    ("section", .obj (jobjOf [("x", .num 2)]))])

/-! # Theorems -/

/-! ## Cookie-jar lemmas -/

theorem lookupCookie_jarSet (jar : List (String × String)) (n v m : String) :
    lookupCookie (jarSet jar n v) m
      = if m = n then some v else lookupCookie jar m := by
  induction jar with
  | nil =>
      by_cases hmn : m = n
      · simp [jarSet, lookupCookie, hmn]
      · have hnm : ¬n = m := fun h => hmn h.symm
        simp [jarSet, lookupCookie, hmn, hnm]
  | cons p tl ih =>
      obtain ⟨k, w⟩ := p
      by_cases hkn : k = n
      · subst hkn
        by_cases hmk : m = k
        · subst hmk; simp [jarSet, lookupCookie]
        · have hkm : ¬k = m := fun h => hmk h.symm
          simp [jarSet, lookupCookie, hmk, hkm]
      · by_cases hkm : k = m
        · subst hkm
          have hkn2 : ¬k = n := hkn
          simp [jarSet, lookupCookie, hkn2, fun (h : k = n) => hkn h]
        · simp [jarSet, lookupCookie, hkn, hkm, ih]

/-! ## C4 — cookie parsing -/

/-- C4 counterexample: for the `Set-Cookie` entry `"a=b=c; Path=/"` the
name=value pair preceding the first `;` is `a` = `b=c`, but
`const [name, value] = mainPart.split('=')` discards everything after the
second `=`, so the stored cookie is `a` = `b`, not `a` = `b=c`. -/
theorem cookie_value_truncated_counterexample :
    recordSetCookie [] "a=b=c; Path=/" = [("a", "b")] ∧
    recordSetCookie [] "a=b=c; Path=/" ≠ [("a", "b=c")] := by
  exact ⟨rfl, by decide⟩

/-- C4 (amended): for every `Set-Cookie` entry the stored name is the text
before the first `=` and the stored value the text between the first and
second `=` of the portion preceding the first `;` (both trimmed; the entry is
skipped when either is empty), overwriting any existing cookie of that name
in place; in particular recording `["a=1", "b=2; Path=/"]` then serialising
yields `"a=1; b=2"`, a subsequent record of `["a=3"]` yields `"a=3; b=2"`
(so `a=3`, not `a=1`), and a value containing `=` is truncated at it. -/
theorem cookie_record_overwrites :
    (∀ (jar : List (String × String)) (n v m : String),
        lookupCookie (jarSet jar n v) m
          = if m = n then some v else lookupCookie jar m) ∧
    getCookieString (recordSetCookie (recordSetCookie [] "a=1") "b=2; Path=/")
      = "a=1; b=2" ∧
    getCookieString
        (recordSetCookie (recordSetCookie (recordSetCookie [] "a=1") "b=2; Path=/") "a=3")
      = "a=3; b=2" ∧
    recordSetCookie [] "a=b=c" = [("a", "b")] := by
  exact ⟨lookupCookie_jarSet, rfl, rfl, rfl⟩

/-! ## C6 — search URL construction for `search({location: "Paris"})` -/

/-- C6: with only `location: "Paris"` supplied (guest defaults 1/0/0/0) the
constructed path starts with `/s/Paris/homes`; with all guest counts zero none
of the four guest parameters is appended; with `adults = 2` all four are. -/
theorem search_url_paris_guest_params :
    strStartsWith (buildSearchUrl "Paris" none none none 1 0 0 0 none none none).path
      "/s/Paris/homes" = true ∧
    (hasParam (buildSearchUrl "Paris" none none none 0 0 0 0 none none none) "adults" = false ∧
     hasParam (buildSearchUrl "Paris" none none none 0 0 0 0 none none none) "children" = false ∧
     hasParam (buildSearchUrl "Paris" none none none 0 0 0 0 none none none) "infants" = false ∧
     hasParam (buildSearchUrl "Paris" none none none 0 0 0 0 none none none) "pets" = false) ∧
    (hasParam (buildSearchUrl "Paris" none none none 2 0 0 0 none none none) "adults" = true ∧
     hasParam (buildSearchUrl "Paris" none none none 2 0 0 0 none none none) "children" = true ∧
     hasParam (buildSearchUrl "Paris" none none none 2 0 0 0 none none none) "infants" = true ∧
     hasParam (buildSearchUrl "Paris" none none none 2 0 0 0 none none none) "pets" = true) := by
  decide

/-! ## C3 — bounded redirect following -/

/-- C3: over a chain of `k` same-status redirects (status 301, 302 or 307)
ending in a `200`, `fetchWithBrowserHeaders` returns the final `200` response
whenever `k ≤ 5`; a chain of 6 redirects fails with the dedicated
too-many-redirects error, thrown while handling the sixth redirect (i.e. at
`redirectCount = 5`, the URL of the sixth chain element). -/
theorem redirect_chain_bounded (s : Nat) (hs : s = 301 ∨ s = 302 ∨ s = 307) :
    (∀ k, k ≤ 5 →
      (fetchWithBrowserHeaders (chainNet s k) [] (chainUrl 0) MAX_REDIRECTS).2.2
        = .ok (HttpResponse.mk 200 none [] "")) ∧
    (fetchWithBrowserHeaders (chainNet s 6) [] (chainUrl 0) MAX_REDIRECTS).2.2
      = .error (.tooManyRedirects (chainUrl 5)) := by
  rcases hs with h | h | h <;> subst h <;> exact ⟨by decide, by decide⟩

/-- C3 witness: the spec's concrete 302→302→200 chain (two intermediate
redirects) returns the final 200 response. -/
theorem redirect_chain_bounded_witness :
    (302 = 301 ∨ 302 = 302 ∨ 302 = 307) ∧ 2 ≤ 5 ∧
    (fetchWithBrowserHeaders (chainNet 302 2) [] (chainUrl 0) MAX_REDIRECTS).2.2
      = .ok (HttpResponse.mk 200 none [] "") := by
  refine ⟨Or.inr (Or.inl rfl), by decide, ?_⟩
  exact (redirect_chain_bounded 302 (Or.inr (Or.inl rfl))).1 2 (by decide)

/-! ## C5 — every received response is recorded in the cookie jar -/

/-- C5: in every execution of `fetchWithBrowserHeaders` the final jar is the
result of folding `parseCookies` over exactly the list of responses received
(so cookie recording ran on every response, including intermediate redirects
and non-2xx responses); the returned response is in that list, and when the
run ends in the too-many-redirects or missing-location error the triggering
response was recorded too (the list is non-empty). -/
theorem fetch_records_every_response (net : String → Option HttpResponse)
    (jar : List (String × String)) (url : String) (left : Nat) :
    (fetchWithBrowserHeaders net jar url left).1
      = ((fetchWithBrowserHeaders net jar url left).2.1).foldl parseCookies jar ∧
    (∀ r, (fetchWithBrowserHeaders net jar url left).2.2 = .ok r
        → r ∈ (fetchWithBrowserHeaders net jar url left).2.1) ∧
    (∀ u, (fetchWithBrowserHeaders net jar url left).2.2 = .error (.tooManyRedirects u)
        → (fetchWithBrowserHeaders net jar url left).2.1 ≠ []) ∧
    (∀ st, (fetchWithBrowserHeaders net jar url left).2.2 = .error (.missingLocation st)
        → (fetchWithBrowserHeaders net jar url left).2.1 ≠ []) := by
  induction left generalizing jar url with
  | zero =>
      cases hnet : net url with
      | none => rw [fetchWithBrowserHeaders.eq_def]; simp [hnet]
      | some resp =>
          by_cases hst : redirectStatus resp.status
          · rw [fetchWithBrowserHeaders.eq_def]; simp [hnet, hst]
          · rw [fetchWithBrowserHeaders.eq_def]; simp [hnet, hst]
  | succ left ih =>
      cases hnet : net url with
      | none => rw [fetchWithBrowserHeaders.eq_def]; simp [hnet]
      | some resp =>
          by_cases hst : redirectStatus resp.status
          · cases hloc : resp.location with
            | none => rw [fetchWithBrowserHeaders.eq_def]; simp [hnet, hst, hloc]
            | some loc =>
                obtain ⟨h1, h2, h3, h4⟩ := ih (parseCookies jar resp) (resolveLocation loc url)
                rw [fetchWithBrowserHeaders.eq_def]
                simp only [hnet, hst, hloc, if_true, List.foldl_cons]
                refine ⟨h1, ?_, ?_, ?_⟩
                · intro r hr
                  exact List.mem_cons_of_mem _ (h2 r hr)
                · intro u _
                  exact List.cons_ne_nil _ _
                · intro st _
                  exact List.cons_ne_nil _ _
          · rw [fetchWithBrowserHeaders.eq_def]; simp [hnet, hst]

/-- C5 witness: on the concrete 302→302→200 chain the final jar is the fold of
`parseCookies` over the received responses, and the returned 200 response is
among them. -/
theorem fetch_records_every_response_witness :
    (fetchWithBrowserHeaders (chainNet 302 2) [] (chainUrl 0) MAX_REDIRECTS).1
      = ((fetchWithBrowserHeaders (chainNet 302 2) [] (chainUrl 0) MAX_REDIRECTS).2.1).foldl
          parseCookies [] ∧
    HttpResponse.mk 200 none [] ""
      ∈ (fetchWithBrowserHeaders (chainNet 302 2) [] (chainUrl 0) MAX_REDIRECTS).2.1 := by
  refine ⟨(fetch_records_every_response (chainNet 302 2) [] (chainUrl 0) MAX_REDIRECTS).1, ?_⟩
  exact (fetch_records_every_response (chainNet 302 2) [] (chainUrl 0) MAX_REDIRECTS).2.1
    (HttpResponse.mk 200 none [] "") (by decide)

/-! ## C7 — missing Location header is a distinct failure -/

/-- C7: a redirect-status response without a `Location` header (with the
redirect budget not yet exhausted) makes `fetchWithBrowserHeaders` fail with
the dedicated missing-location error, a constructor distinct from both the
too-many-redirects error and the transport error. -/
theorem missing_location_distinct_error (net : String → Option HttpResponse)
    (jar : List (String × String)) (url : String) (left : Nat) (resp : HttpResponse)
    (hnet : net url = some resp) (hst : redirectStatus resp.status = true)
    (hloc : resp.location = none) :
    (fetchWithBrowserHeaders net jar url (left + 1)).2.2
      = .error (.missingLocation resp.status) ∧
    (∀ u, FetchError.missingLocation resp.status ≠ FetchError.tooManyRedirects u) ∧
    (∀ m, FetchError.missingLocation resp.status ≠ FetchError.transport m) := by
  refine ⟨by rw [fetchWithBrowserHeaders.eq_def]; simp [hnet, hst, hloc], ?_, ?_⟩
  · intro u h
    exact FetchError.noConfusion h
  · intro m h
    exact FetchError.noConfusion h

/-- C7 witness: a single 302 response carrying no `Location` header. -/
theorem missing_location_distinct_error_witness :
    (fetchWithBrowserHeaders
        (fun u => if u = chainUrl 0 then some (HttpResponse.mk 302 none [] "") else none)
        [] (chainUrl 0) MAX_REDIRECTS).2.2
      = .error (.missingLocation 302) ∧
    (∀ u, FetchError.missingLocation 302 ≠ FetchError.tooManyRedirects u) := by
  have h := missing_location_distinct_error
    (fun u => if u = chainUrl 0 then some (HttpResponse.mk 302 none [] "") else none)
    [] (chainUrl 0) 4 (HttpResponse.mk 302 none [] "") (by decide) (by decide) rfl
  exact ⟨h.1, h.2.1⟩

/-! ## C1 — extraction failures do not produce `isError: true` -/

/-- C1 counterexample: a run whose fetches succeed but whose page carries no
parseable `#data-deferred-state-0` script (`state? = none`, so the extraction
step fails) returns `isError = false` and a payload without any `error` key —
not the structured error result the claim asserts — in both pipelines. -/
theorem extraction_failure_counterexample :
    (handleAirbnbSearch (fun _ => true) (.ok ()) (.ok none)
        "Paris" none none none none none none none none none none false).isError = false ∧
    ((handleAirbnbSearch (fun _ => true) (.ok ()) (.ok none)
        "Paris" none none none none none none none none none none false).payload.lookupKey
        "error") = none ∧
    (handleAirbnbListingDetails (fun _ => true) (.ok ()) (.ok none)
        "12345" none none none none none none false).isError = false ∧
    ((handleAirbnbListingDetails (fun _ => true) (.ok ()) (.ok none)
        "12345" none none none none none none false).payload.lookupKey "error") = none := by
  exact ⟨rfl, rfl, rfl, rfl⟩

/-- C1 (amended): an extraction failure (missing script element, JSON parse
failure, or missing expected subtree) is caught by the inner `try/catch`,
which only logs it: the operation returns a result with `isError` set to
`false` whose payload carries the attempted URL (and, for listing details, an
empty `details` object) but no error message.  Only failures of the fetches
themselves produce the `isError: true` shape. -/
theorem extraction_failure_plain_result :
    (∀ (allowed : String → Bool) (state? : Option Json)
        (location : String) (placeId checkin checkout : Option String)
        (adults children infants pets minPrice maxPrice : Option Int)
        (cursor : Option String) (ignoreRobotsText : Bool),
      (!ignoreRobotsText && !allowed (robotsPath (buildSearchUrl location placeId checkin
          checkout (adults.getD 1) (children.getD 0) (infants.getD 0) (pets.getD 0)
          minPrice maxPrice cursor))) = false →
      searchExtraction state? = .error () →
      handleAirbnbSearch allowed (.ok ()) (.ok state?) location placeId checkin checkout
          adults children infants pets minPrice maxPrice cursor ignoreRobotsText
        = ToolResult.mk (.obj (jobjOf [("searchUrl", .str (urlToString (buildSearchUrl
            location placeId checkin checkout (adults.getD 1) (children.getD 0)
            (infants.getD 0) (pets.getD 0) minPrice maxPrice cursor)))])) false) ∧
    (∀ (allowed : String → Bool) (state? : Option Json)
        (id : String) (checkin checkout : Option String)
        (adults children infants pets : Option Int) (ignoreRobotsText : Bool),
      (!ignoreRobotsText && !allowed (robotsPath (buildListingUrl id checkin checkout
          (adults.getD 1) (children.getD 0) (infants.getD 0) (pets.getD 0)))) = false →
      detailsExtraction state? = .error () →
      handleAirbnbListingDetails allowed (.ok ()) (.ok state?) id checkin checkout
          adults children infants pets ignoreRobotsText
        = ToolResult.mk (.obj (jobjOf
            [("listingUrl", .str (urlToString (buildListingUrl id checkin checkout
                (adults.getD 1) (children.getD 0) (infants.getD 0) (pets.getD 0)))),
             ("details", .obj .nil)])) false) := by
  constructor
  · intro allowed state? location placeId checkin checkout adults children infants pets
      minPrice maxPrice cursor ignoreRobotsText hrob hfail
    simp [handleAirbnbSearch, hrob, hfail]
  · intro allowed state? id checkin checkout adults children infants pets
      ignoreRobotsText hrob hfail
    simp [handleAirbnbListingDetails, hrob, hfail]

/-- C1 witness: concrete extraction-failure runs (robots check bypassed via
`ignoreRobotsText = true`, state script absent) for both pipelines. -/
theorem extraction_failure_plain_result_witness :
    handleAirbnbSearch (fun _ => false) (.ok ()) (.ok none)
        "Amsterdam" none none none none none none none none none none true
      = ToolResult.mk (.obj (jobjOf [("searchUrl", .str (urlToString (buildSearchUrl
          "Amsterdam" none none none 1 0 0 0 none none none)))])) false ∧
    handleAirbnbListingDetails (fun _ => false) (.ok ()) (.ok none)
        "777" none none none none none none true
      = ToolResult.mk (.obj (jobjOf
          [("listingUrl", .str (urlToString (buildListingUrl "777" none none 1 0 0 0))),
           ("details", .obj .nil)])) false := by
  constructor
  · exact extraction_failure_plain_result.1 (fun _ => false) none
      "Amsterdam" none none none none none none none none none none true rfl rfl
  · exact extraction_failure_plain_result.2 (fun _ => false) none
      "777" none none none none none none true rfl rfl

/-! ## C2 — robots.txt denial short-circuits, but under the key `url` -/

/-- C2 counterexample: when the robots policy denies the path, the returned
payload stores the would-be URL under the key `url` (lines 340 and 486), not
under `searchUrl`/`listingUrl` as the claim states. -/
theorem robots_denied_url_key_counterexample :
    (handleAirbnbSearch (fun _ => false) (.ok ()) (.ok none)
        "Paris" none none none none none none none none none none false).isError = true ∧
    ((handleAirbnbSearch (fun _ => false) (.ok ()) (.ok none)
        "Paris" none none none none none none none none none none false).payload.lookupKey
        "searchUrl") = none ∧
    ((handleAirbnbSearch (fun _ => false) (.ok ()) (.ok none)
        "Paris" none none none none none none none none none none false).payload.lookupKey
        "url")
      = some (.str "https://www.airbnb.ca/s/Paris/homes?adults=1&children=0&infants=0&pets=0") ∧
    ((handleAirbnbListingDetails (fun _ => false) (.ok ()) (.ok none)
        "12345" none none none none none none false).payload.lookupKey "listingUrl") = none ∧
    ((handleAirbnbListingDetails (fun _ => false) (.ok ()) (.ok none)
        "12345" none none none none none none false).payload.lookupKey "url").isSome = true := by
  exact ⟨rfl, rfl, rfl, rfl, rfl⟩

/-- C2 (amended): with `ignoreRobotsText` false and the constructed path
disallowed, both handlers short-circuit — the result does not depend on the
warm-up or target fetch at all — and return (not throw) `isError: true` with a
payload carrying the robots error message and the would-be URL under the key
`url`. -/
theorem robots_denied_short_circuit :
    (∀ (allowed : String → Bool) (warmup : Except String Unit)
        (fetched : Except String (Option Json))
        (location : String) (placeId checkin checkout : Option String)
        (adults children infants pets minPrice maxPrice : Option Int)
        (cursor : Option String),
      allowed (robotsPath (buildSearchUrl location placeId checkin checkout
          (adults.getD 1) (children.getD 0) (infants.getD 0) (pets.getD 0)
          minPrice maxPrice cursor)) = false →
      handleAirbnbSearch allowed warmup fetched location placeId checkin checkout
          adults children infants pets minPrice maxPrice cursor false
        = ToolResult.mk (.obj (jobjOf
            [("error", .str robotsErrorMessage),
             ("url", .str (urlToString (buildSearchUrl location placeId checkin checkout
                (adults.getD 1) (children.getD 0) (infants.getD 0) (pets.getD 0)
                minPrice maxPrice cursor)))])) true) ∧
    (∀ (allowed : String → Bool) (warmup : Except String Unit)
        (fetched : Except String (Option Json))
        (id : String) (checkin checkout : Option String)
        (adults children infants pets : Option Int),
      allowed (robotsPath (buildListingUrl id checkin checkout
          (adults.getD 1) (children.getD 0) (infants.getD 0) (pets.getD 0))) = false →
      handleAirbnbListingDetails allowed warmup fetched id checkin checkout
          adults children infants pets false
        = ToolResult.mk (.obj (jobjOf
            [("error", .str robotsErrorMessage),
             ("url", .str (urlToString (buildListingUrl id checkin checkout
                (adults.getD 1) (children.getD 0) (infants.getD 0) (pets.getD 0))))])) true) := by
  constructor
  · intro allowed warmup fetched location placeId checkin checkout adults children infants
      pets minPrice maxPrice cursor hdis
    simp [handleAirbnbSearch, hdis]
  · intro allowed warmup fetched id checkin checkout adults children infants pets hdis
    simp [handleAirbnbListingDetails, hdis]

/-- C2 witness: concrete denied runs of both handlers (the fetch outcomes are
irrelevant and chosen arbitrarily). -/
theorem robots_denied_short_circuit_witness :
    handleAirbnbSearch (fun _ => false) (.error "down") (.error "down")
        "Berlin" none none none none none none none none none none false
      = ToolResult.mk (.obj (jobjOf
          [("error", .str robotsErrorMessage),
           ("url", .str (urlToString (buildSearchUrl "Berlin" none none none
              1 0 0 0 none none none)))])) true ∧
    handleAirbnbListingDetails (fun _ => false) (.error "down") (.error "down")
        "42" none none none none none none false
      = ToolResult.mk (.obj (jobjOf
          [("error", .str robotsErrorMessage),
           ("url", .str (urlToString (buildListingUrl "42" none none 1 0 0 0)))])) true := by
  constructor
  · exact robots_denied_short_circuit.1 (fun _ => false) (.error "down") (.error "down")
      "Berlin" none none none none none none none none none none rfl
  · exact robots_denied_short_circuit.2 (fun _ => false) (.error "down") (.error "down")
      "42" none none none none none none rfl

/-! ## URL query-parameter lemmas -/

theorem any_key_optQueryParam (name k : String) (v : Option String)
    (h : (name == k) = false) :
    (optQueryParam name v).any (fun p => p.1 == k) = false := by
  cases v with
  | none => rfl
  | some s =>
      simp only [optQueryParam]
      split
      · rfl
      · simp [h]

theorem any_key_optIntQueryParam (name k : String) (v : Option Int)
    (h : (name == k) = false) :
    (optIntQueryParam name v).any (fun p => p.1 == k) = false := by
  cases v with
  | none => rfl
  | some n =>
      simp only [optIntQueryParam]
      split
      · rfl
      · simp [h]

theorem filter_key_optQueryParam (name k : String) (v : Option String)
    (h : (name == k) = false) :
    (optQueryParam name v).filter (fun p => p.1 == k) = [] := by
  cases v with
  | none => rfl
  | some s =>
      simp only [optQueryParam]
      split
      · rfl
      · simp [h]

/-! ## C10 — guest parameters appear iff `adults + children > 0` -/

/-- C10: in both URL builders each of the four guest parameters is present in
the query exactly when the coerced `adults + children` total is positive — in
particular, inputs with `adults = 0` and `children = 0` but positive `infants`
or `pets` produce none of the four parameters. -/
theorem guest_params_iff_positive_total
    (location : String) (placeId checkin checkout : Option String)
    (adults children infants pets : Int) (minPrice maxPrice : Option Int)
    (cursor : Option String) (id : String) (ci co : Option String) :
    ((hasParam (buildSearchUrl location placeId checkin checkout adults children
        infants pets minPrice maxPrice cursor) "adults" = true ↔ 0 < adults + children) ∧
     (hasParam (buildSearchUrl location placeId checkin checkout adults children
        infants pets minPrice maxPrice cursor) "children" = true ↔ 0 < adults + children) ∧
     (hasParam (buildSearchUrl location placeId checkin checkout adults children
        infants pets minPrice maxPrice cursor) "infants" = true ↔ 0 < adults + children) ∧
     (hasParam (buildSearchUrl location placeId checkin checkout adults children
        infants pets minPrice maxPrice cursor) "pets" = true ↔ 0 < adults + children)) ∧
    ((hasParam (buildListingUrl id ci co adults children infants pets) "adults" = true
        ↔ 0 < adults + children) ∧
     (hasParam (buildListingUrl id ci co adults children infants pets) "children" = true
        ↔ 0 < adults + children) ∧
     (hasParam (buildListingUrl id ci co adults children infants pets) "infants" = true
        ↔ 0 < adults + children) ∧
     (hasParam (buildListingUrl id ci co adults children infants pets) "pets" = true
        ↔ 0 < adults + children)) := by
  constructor
  · refine ⟨?_, ?_, ?_, ?_⟩
    all_goals
      simp only [hasParam, buildSearchUrl, List.any_append]
      rw [any_key_optQueryParam _ _ _ (by rfl), any_key_optQueryParam _ _ _ (by rfl),
        any_key_optQueryParam _ _ _ (by rfl), any_key_optIntQueryParam _ _ _ (by rfl),
        any_key_optIntQueryParam _ _ _ (by rfl), any_key_optQueryParam _ _ _ (by rfl)]
      by_cases hc : 0 < adults + children
      · simp [guestParamsSearch, hc]
      · simp [guestParamsSearch, hc]
  · refine ⟨?_, ?_, ?_, ?_⟩
    all_goals
      simp only [hasParam, buildListingUrl, List.any_append]
      rw [any_key_optQueryParam _ _ _ (by rfl), any_key_optQueryParam _ _ _ (by rfl)]
      by_cases hc : 0 < adults + children
      · simp [guestParamsListing, hc]
      · simp [guestParamsListing, hc]

/-! ## C9 — duplicated guest parameters in the listing URL -/

/-- C9: when the coerced `adults + children` total is positive, the listing
URL query carries `adults`, `children` and `infants` twice each (the source
repeats the three appends) and `pets` exactly once. -/
theorem listing_guest_params_duplicated (id : String) (checkin checkout : Option String)
    (adults children infants pets : Int) (h : 0 < adults + children) :
    countParam (buildListingUrl id checkin checkout adults children infants pets)
      "adults" = 2 ∧
    countParam (buildListingUrl id checkin checkout adults children infants pets)
      "children" = 2 ∧
    countParam (buildListingUrl id checkin checkout adults children infants pets)
      "infants" = 2 ∧
    countParam (buildListingUrl id checkin checkout adults children infants pets)
      "pets" = 1 := by
  refine ⟨?_, ?_, ?_, ?_⟩
  all_goals
    simp only [countParam, buildListingUrl, List.filter_append, List.length_append]
    rw [filter_key_optQueryParam _ _ _ (by rfl), filter_key_optQueryParam _ _ _ (by rfl)]
    simp [guestParamsListing, h]

/-- C9 witness: the listing URL for two adults duplicates the `adults`,
`children`, `infants` parameters and carries `pets` once. -/
theorem listing_guest_params_duplicated_witness :
    0 < (2 : Int) + 0 ∧
    countParam (buildListingUrl "99" none none 2 0 0 0) "adults" = 2 ∧
    countParam (buildListingUrl "99" none none 2 0 0 0) "pets" = 1 := by
  have happ := listing_guest_params_duplicated "99" none none 2 0 0 0 (by decide)
  exact ⟨by decide, happ.1, happ.2.2.2⟩

/-! ## C8 — section allow-list of the listing-details pipeline -/

theorem cleanJA_jarrOf (l : List Json) :
    cleanJA (jarrOf l) = jarrOf (l.map cleanObject) := by
  induction l with
  | nil => rfl
  | cons x tl ih => simp [jarrOf, cleanJA, ih]

theorem sectionKeep_eq_keepEntry (s : Json) (h : (sectionIdOf s).isSome = true) :
    sectionKeep s = .ok (keepEntry s) := by
  cases s with
  | obj fs =>
      simp only [sectionIdOf] at h
      cases hf : JObj.find? fs "sectionId" with
      | none => rw [hf] at h; simp at h
      | some v =>
          cases v with
          | str sid =>
              simp only [sectionKeep, keepEntry, sectionIdOf, hf]
              cases hl : lookupSchema allowSectionSchema sid <;> simp [hl]
          | null => rw [hf] at h; simp at h
          | bool b => rw [hf] at h; simp at h
          | num n => rw [hf] at h; simp at h
          | arr xs => rw [hf] at h; simp at h
          | obj gs => rw [hf] at h; simp at h
  | null => simp [sectionIdOf] at h
  | bool b => simp [sectionIdOf] at h
  | num n => simp [sectionIdOf] at h
  | str s => simp [sectionIdOf] at h
  | arr xs => simp [sectionIdOf] at h

theorem processSections_filterMap (l : List Json)
    (h : ∀ s ∈ l, (sectionIdOf s).isSome = true) :
    processSections (jarrOf l) = .ok (jarrOf (l.filterMap keepEntry)) := by
  induction l with
  | nil => rfl
  | cons s tl ih =>
      have hs := h s (by simp)
      have htl := fun x hx => h x (List.mem_cons_of_mem _ hx)
      rw [jarrOf, processSections, sectionKeep_eq_keepEntry s hs, ih htl]
      cases hk : keepEntry s <;> simp [hk, List.filterMap_cons, jarrOf]

theorem decide_mem_allowedSectionIds (sid : String) :
    decide (sid ∈ allowedSectionIds) = (lookupSchema allowSectionSchema sid).isSome := by
  simp only [allowSectionSchema, allowedSectionIds, lookupSchema]
  split_ifs with h1 h2 h3 h4 h5 <;> simp_all [List.mem_cons, eq_comm]

theorem keepEntry_ids (l : List Json) (h : ∀ s ∈ l, (sectionIdOf s).isSome = true) :
    (l.filterMap keepEntry).filterMap (fun j => j.lookupKey "id")
      = ((l.filterMap sectionIdOf).filter
          (fun sid => decide (sid ∈ allowedSectionIds))).map Json.str := by
  induction l with
  | nil => rfl
  | cons s tl ih =>
      have hs := h s (by simp)
      have htl := fun x hx => h x (List.mem_cons_of_mem _ hx)
      obtain ⟨sid, hsid⟩ := Option.isSome_iff_exists.mp hs
      rw [List.filterMap_cons, List.filterMap_cons]
      cases hl : lookupSchema allowSectionSchema sid with
      | some sch =>
          have hid : Json.lookupKey (sectionEntry s sid sch) "id" = some (Json.str sid) := rfl
          simp only [keepEntry, hsid, hl, Option.map_some']
          rw [List.filterMap_cons]
          simp only [hid]
          rw [List.filter_cons]
          rw [decide_mem_allowedSectionIds, hl]
          simp [ih htl]
      | none =>
          simp only [keepEntry, hsid, hl, Option.map_none']
          rw [List.filter_cons]
          rw [decide_mem_allowedSectionIds, hl]
          simp [ih htl]

/-- C8: for a parsed sections array (each cleaned section carrying a string
`sectionId`), the details pipeline produces exactly the sections whose
identifier is one of the five allow-listed ones, each shaped
`{id: sectionId, ...projected fields}` (`keepEntry`), and the `id` fields of
the output are precisely the section identifiers that lie in the allow-list,
in order — every other section is dropped entirely. -/
theorem listing_sections_allowlist (sections : List Json)
    (h : ∀ s ∈ sections, (sectionIdOf (cleanObject s)).isSome = true) :
    extractListingDetails (listingStateOf (jarrOf sections))
      = .ok (jarrOf ((sections.map cleanObject).filterMap keepEntry)) ∧
    ((sections.map cleanObject).filterMap keepEntry).filterMap
        (fun j => j.lookupKey "id")
      = (((sections.map cleanObject).filterMap sectionIdOf).filter
          (fun sid => decide (sid ∈ allowedSectionIds))).map Json.str := by
  have h' : ∀ s ∈ sections.map cleanObject, (sectionIdOf s).isSome = true := by
    intro s hs
    obtain ⟨t, ht, rfl⟩ := List.mem_map.mp hs
    exact h t ht
  constructor
  · have hred : extractListingDetails (listingStateOf (jarrOf sections))
        = processSections (cleanJA (jarrOf sections)) := rfl
    rw [hred, cleanJA_jarrOf, processSections_filterMap _ h']
  · exact keepEntry_ids _ h'

/-- C8 witness: of a location section and a reviews section, only the former
(projected to `lat`/`title` plus the `id`) survives the pipeline. -/
theorem listing_sections_allowlist_witness :
    extractListingDetails (listingStateOf (jarrOf [sampleLocationSection, sampleOtherSection]))
      = .ok (jarrOf [Json.obj (jobjOf
          [("id", Json.str "LOCATION_DEFAULT"),
           ("lat", Json.num 48), ("title", Json.str "Loc")])]) := by
  have happ :=
    (listing_sections_allowlist [sampleLocationSection, sampleOtherSection] (by decide)).1
  exact happ.trans (by rfl)
